import Mathlib

/-!
Verification of `credit_bureau_feat_extractor.py`.

The source is a single Python class `CreditBureauFeatureExtractor` that turns
semi-structured credit-bureau report documents into flat feature records and a
table keyed by `application_id`.  We embed the reachable Python fragment
shallowly:

* Python/JSON values become the inductive `PyVal` (numbers are modelled with
  `Int` and `ℚ` — the source only performs exact decimal arithmetic on the
  values the claims touch);
* Python dicts become association lists with Python's insertion-order update
  semantics;
* code that can raise is embedded in `Except PyErr`; a Python `try/except`
  that swallows everything corresponds to discarding the `Except.error` case;
* the ambient clock (`datetime.today()` / `datetime.now()`) is passed
  explicitly: `today : DateD` for `calculate_age` and `now : Int` (seconds on
  the civil timeline) for the enquiry recency window.
-/

set_option autoImplicit false

namespace CreditBureau

/-- The kinds of exception the embedded fragment can raise. -/
inductive PyErr where
  | attributeError
  | typeError
  | keyError
  | valueError
  deriving DecidableEq, Repr

/-- Python/JSON-like values as they occur in the credit-report documents. -/
inductive PyVal where
  | none : PyVal
  | int : Int → PyVal
  | float : ℚ → PyVal
  | str : String → PyVal
  | list : List PyVal → PyVal
  | dict : List (String × PyVal) → PyVal

namespace PyVal

/-- Python truthiness (`bool(v)`) for the embedded values. -/
def truthy : PyVal → Bool
  | .none => false
  | .int n => n ≠ 0
  | .float q => q ≠ 0
  | .str s => s ≠ ""
  | .list l => !l.isEmpty
  | .dict d => !d.isEmpty

end PyVal

/-- A Python dict with string keys, in insertion order. -/
abbrev Dict := List (String × PyVal)

/-- `d.get(k, dflt)` on a value already known to be a dict. -/
def dGet (d : Dict) (k : String) (dflt : PyVal) : PyVal :=
  (d.lookup k).getD dflt

/-- Python dict item assignment `d[k] = v`: overwrite in place if the key
exists, else append. -/
def dictSet (d : Dict) (k : String) (v : PyVal) : Dict :=
  if d.any (fun p => p.1 = k) then
    d.map (fun p => if p.1 = k then (k, v) else p)
  else
    d ++ [(k, v)]

/-- Python `d.update(e)`. -/
def dictUpdate (d e : Dict) : Dict :=
  e.foldl (fun a p => dictSet a p.1 p.2) d

/-- `v.get(k, dflt)`: only dicts have a `.get` attribute; on anything else
Python raises `AttributeError`. -/
def pyGet (v : PyVal) (k : String) (dflt : PyVal) : Except PyErr PyVal :=
  match v with
  | .dict d => .ok (dGet d k dflt)
  | _ => .error .attributeError

/-- `v[k]` with a string key: dicts look the key up (raising `KeyError` when
absent); every other value raises `TypeError`. -/
def pySubscript (v : PyVal) (k : String) : Except PyErr PyVal :=
  match v with
  | .dict d =>
    match d.lookup k with
    | some x => .ok x
    | Option.none => .error .keyError
  | _ => .error .typeError

/-- `k in v` for a dict `v` (only used where `v` is known to be a dict). -/
def dHasKey (d : Dict) (k : String) : Bool :=
  d.any (fun p => p.1 = k)

mutual

/-- Python `==` on the embedded values: numerics compare by value across
`int`/`float`, the rest structurally (mirroring Python's recursive `==`). -/
def pyEq : PyVal → PyVal → Bool
  | .none, .none => true
  | .int a, .int b => a = b
  | .int a, .float b => (a : ℚ) = b
  | .float a, .int b => a = (b : ℚ)
  | .float a, .float b => a = b
  | .str a, .str b => a = b
  | .list a, .list b => pyEqList a b
  | .dict a, .dict b => pyEqDict a b
  | _, _ => false

/-- Elementwise `pyEq` on lists. -/
def pyEqList : List PyVal → List PyVal → Bool
  | [], [] => true
  | a :: as, b :: bs => pyEq a b && pyEqList as bs
  | _, _ => false

/-- Entrywise `pyEq` on dicts (the source never compares dicts whose key
order differs, so positional comparison is adequate here). -/
def pyEqDict : List (String × PyVal) → List (String × PyVal) → Bool
  | [], [] => true
  | (k, a) :: as, (l, b) :: bs => k = l && pyEq a b && pyEqDict as bs
  | _, _ => false

end

/-- Numeric reading of a value; only applied where the source guarantees the
value is an `int` or a `float`. -/
def toQ : PyVal → ℚ
  | .int n => (n : ℚ)
  | .float q => q
  | _ => 0

/-- Python `+` on numbers: `int + int` stays `int`, any `float` operand makes
the result a `float`.  The source only ever adds the (always numeric) outputs
of `clean_numeric`, so the non-numeric fallback is unreachable there. -/
def pyAdd : PyVal → PyVal → PyVal
  | .int a, .int b => .int (a + b)
  | .int a, .float b => .float ((a : ℚ) + b)
  | .float a, .int b => .float (a + (b : ℚ))
  | .float a, .float b => .float (a + b)
  | _, _ => .int 0

/-- Python `a > b` on numbers (the source only compares `clean_numeric`
outputs, which are numeric). -/
def pyGt (a b : PyVal) : Bool :=
  toQ b < toQ a

/-- Whitespace in the sense of Python's `str.strip()` (the characters the
source's inputs can carry). -/
def isWS (c : Char) : Bool :=
  c = ' ' || c = '\t' || c = '\n' || c = '\r'

/-- `str.strip()` on the character list. -/
def pyStripL (l : List Char) : List Char :=
  ((l.dropWhile isWS).reverse.dropWhile isWS).reverse

/-- Python `str.strip()` with no argument. -/
def pyStrip (s : String) : String :=
  String.mk (pyStripL s.toList)

/-- `str(v)` for the places the source applies it.  For strings it is the
identity (Python's `str` of a `str`); numbers print decimally.  Containers
use a bracketed rendering; no claim exercises those branches. -/
def pyStr : PyVal → String
  | .none => "None"
  | .int n => toString n
  | .float q => toString q
  | .str s => s
  | .list l => "[" ++ String.intercalate ", " (l.map (fun v => pyStrLit v)) ++ "]"
  | .dict d => "\x7b" ++ String.intercalate ", " (d.map (fun p => p.1 ++ ": " ++ pyStrLit p.2)) ++ "\x7d"
where
  /-- Rendering of container elements. -/
  pyStrLit : PyVal → String
  | .str s => s
  | .none => "None"
  | .int n => toString n
  | .float q => toString q
  | .list _ => "[...]"
  | .dict _ => "\x7b...\x7d"

/-- `re.sub(r'[^\d.]', '', s)`: keep only decimal digits and dots. -/
def stripNonDigitDot (s : String) : String :=
  String.mk (s.toList.filter (fun c => c.isDigit || c = '.'))

/-- Decimal value of a digit list. -/
def digitsVal (l : List Char) : Nat :=
  l.foldl (fun a c => a * 10 + (c.toNat - 48)) 0

/-- Python `float()` applied to a string containing only digits and dots:
it parses iff there is at least one digit and at most one dot; the value is
the usual decimal reading. -/
def parsePyFloat (s : String) : Option ℚ :=
  let l := s.toList
  if l.all (fun c => c.isDigit || c = '.') then
    match l.filter (fun c => c = '.') with
    | [] => if l.isEmpty then Option.none else some (digitsVal l : ℚ)
    | [_] =>
      let intPart := l.takeWhile (fun c => c ≠ '.')
      let fracPart := (l.dropWhile (fun c => c ≠ '.')).drop 1
      if intPart.isEmpty && fracPart.isEmpty then Option.none
      else some ((digitsVal intPart : ℚ) + (digitsVal fracPart : ℚ) / (10 : ℚ) ^ fracPart.length)
    | _ => Option.none
  else Option.none

/-- `clean_numeric`: convert string numbers with commas to float; sentinels
and parse failures degrade to `0`; numbers pass through unchanged.  The
routine is total — no exception escapes. -/
def clean_numeric (value : PyVal) : PyVal :=
  match value with
  | .none => .int 0
  | .int n => .int n
  | .float q => .float q
  | .str s =>
    if pyStrip s = "" || pyStrip s = "-" || pyStrip s = "null" || pyStrip s = "None" then
      .int 0
    else
      match parsePyFloat (stripNonDigitDot s) with
      | some q => .float q
      | Option.none => .int 0
  | v =>
    match parsePyFloat (stripNonDigitDot (pyStr v)) with
    | some q => .float q
    | Option.none => .int 0

/-! ### Dates and `strptime` -/

/-- A calendar date, as carried by `datetime.strptime(s, "%d/%m/%Y")` and by
`datetime.today()` (the time-of-day part is irrelevant to the source's age
computation). -/
structure DateD where
  year : Int
  month : Int
  day : Int
  deriving DecidableEq, Repr

/-- Gregorian leap year. -/
def isLeap (y : Int) : Bool :=
  y % 4 = 0 && (y % 100 ≠ 0 || y % 400 = 0)

/-- Number of days in a month. -/
def daysInMonth (y m : Int) : Int :=
  if m = 2 then (if isLeap y then 29 else 28)
  else if m = 4 || m = 6 || m = 9 || m = 11 then 30
  else 31

/-- Validity of a `datetime.date` triple (`MINYEAR = 1`; the four-digit year
of `%Y` bounds it above). -/
def validDate (y m d : Int) : Bool :=
  1 ≤ y && 1 ≤ m && m ≤ 12 && 1 ≤ d && d ≤ daysInMonth y m

/-- Days since the Unix epoch of a civil date (Hinnant's `days_from_civil`;
all intermediate divisions are floor divisions). -/
def daysFromCivil (y m d : Int) : Int :=
  let y' := if m ≤ 2 then y - 1 else y
  let era := Int.fdiv y' 400
  let yoe := y' - era * 400
  let mp := if 2 < m then m - 3 else m + 9
  let doy := Int.fdiv (153 * mp + 2) 5 + d - 1
  let doe := yoe * 365 + Int.fdiv yoe 4 - Int.fdiv yoe 100 + doy
  era * 146097 + doe - 719468

/-- Seconds on the civil timeline (Unix epoch origin) of a date-time. -/
def epochSecs (y m d h mi s : Int) : Int :=
  daysFromCivil y m d * 86400 + h * 3600 + mi * 60 + s

/-- Take at most `n` leading decimal digits. -/
def takeDigits : Nat → List Char → List Char × List Char
  | 0, l => ([], l)
  | _ + 1, [] => ([], [])
  | n + 1, c :: cs =>
    if c.isDigit then
      let (a, b) := takeDigits n cs
      (c :: a, b)
    else ([], c :: cs)

/-- `datetime.strptime(s, "%d/%m/%Y")` as compiled by CPython: one or two
digits for day and month, exactly four for the year, the whole string
consumed, and the triple must form a valid calendar date (otherwise the
`ValueError` is represented by `none`). -/
def parseDMYList (cs : List Char) : Option DateD :=
  let (dd, r1) := takeDigits 2 cs
  if dd.isEmpty then Option.none else
  match r1 with
  | '/' :: r2 =>
    let (mm, r3) := takeDigits 2 r2
    if mm.isEmpty then Option.none else
    match r3 with
    | '/' :: r4 =>
      let (yy, r5) := takeDigits 4 r4
      if yy.length = 4 && r5.isEmpty then
        let y : Int := digitsVal yy
        let m : Int := digitsVal mm
        let d : Int := digitsVal dd
        if validDate y m d then some ⟨y, m, d⟩ else Option.none
      else Option.none
    | _ => Option.none
  | _ => Option.none

/-- String-level wrapper for the `%d/%m/%Y` parse. -/
def parseDMY (s : String) : Option DateD :=
  parseDMYList s.toList

/-- `datetime.strptime(s, "%d/%m/%Y %H:%M:%S")`, reduced to seconds on the
civil timeline.  The literal space in the format matches one or more
whitespace characters; out-of-range fields mean `ValueError`, i.e. `none`. -/
def parseDateTimeList (cs : List Char) : Option Int :=
  let (dd, r1) := takeDigits 2 cs
  if dd.isEmpty then Option.none else
  match r1 with
  | '/' :: r2 =>
    let (mm, r3) := takeDigits 2 r2
    if mm.isEmpty then Option.none else
    match r3 with
    | '/' :: r4 =>
      let (yy, r5) := takeDigits 4 r4
      if yy.length ≠ 4 then Option.none else
      let ws := r5.takeWhile isWS
      let r6 := r5.dropWhile isWS
      if ws.isEmpty then Option.none else
      let (hh, r7) := takeDigits 2 r6
      if hh.isEmpty then Option.none else
      match r7 with
      | ':' :: r8 =>
        let (mi, r9) := takeDigits 2 r8
        if mi.isEmpty then Option.none else
        match r9 with
        | ':' :: r10 =>
          let (ss, r11) := takeDigits 2 r10
          if ss.isEmpty || !r11.isEmpty then Option.none else
          let y : Int := digitsVal yy
          let mo : Int := digitsVal mm
          let d : Int := digitsVal dd
          let h : Int := digitsVal hh
          let mi2 : Int := digitsVal mi
          let s2 : Int := digitsVal ss
          if validDate y mo d && h ≤ 23 && mi2 ≤ 59 && s2 ≤ 59 then
            some (epochSecs y mo d h mi2 s2)
          else Option.none
        | _ => Option.none
      | _ => Option.none
    | _ => Option.none
  | _ => Option.none

/-- String-level wrapper for the `%d/%m/%Y %H:%M:%S` parse. -/
def parseDateTime (s : String) : Option Int :=
  parseDateTimeList s.toList

/-- `calculate_age`: age in whole years from a `%d/%m/%Y` birthdate string.
Falsy, sentinel and unparseable strings give `None`; a truthy non-string
raises `AttributeError` at `.strip()` (that call sits outside the `try`).
Python's tuple comparison `(today.month, today.day) < (b.month, b.day)` is
lexicographic. -/
def calculate_age (today : DateD) (birthdate : PyVal) : Except PyErr PyVal :=
  if !birthdate.truthy then .ok .none
  else
    match birthdate with
    | .str s =>
      if pyStrip s = "" || pyStrip s = "-" then .ok .none
      else
        match parseDMY s with
        | some b =>
          .ok (.int (today.year - b.year -
            (if today.month < b.month || (today.month = b.month && today.day < b.day)
             then 1 else 0)))
        | Option.none => .ok .none
    | _ => .error .attributeError

/-! ### Enquiry history -/

/-- `datetime.strptime(v, "%d/%m/%Y %H:%M:%S")` on an arbitrary value:
`TypeError` on a non-string argument, `ValueError` when the string does not
match the format. -/
def pyStrptimeDT (v : PyVal) : Except PyErr Int :=
  match v with
  | .str s =>
    match parseDateTime s with
    | some t => .ok t
    | Option.none => .error .valueError
  | _ => .error .typeError

/-- Body of the `for` loop in `process_enquiry_history`: fetch and parse the
entry's request timestamp and test `(now - t).days <= 90`; `.days` is the
floor division of the elapsed seconds by 86400. -/
def enquiryStep (now : Int) (e : PyVal) : Except PyErr Bool := do
  let v ← pySubscript e "daterequested"
  let t ← pyStrptimeDT v
  pure (decide (Int.fdiv (now - t) 86400 ≤ 90))

/-- The counting loop of `process_enquiry_history`: `try/except/continue`
keeps iterating, so entries whose step raises contribute nothing. -/
def recentLoop (now : Int) : List PyVal → Int → Int
  | [], acc => acc
  | e :: rest, acc =>
    match enquiryStep now e with
    | .ok true => recentLoop now rest (acc + 1)
    | _ => recentLoop now rest acc

/-- `process_enquiry_history`: count recent credit enquiries.  A falsy input
returns the default record; iterating a truthy string or dict yields strings
(characters / keys), whose subscripting raises inside the `try` and is
swallowed; a truthy number is not iterable, so the `for` itself raises
`TypeError`. -/
def process_enquiry_history (now : Int) (enquiry_history : PyVal) : Except PyErr Dict :=
  if !enquiry_history.truthy then .ok [("total_recent_enquiries", .int 0)]
  else
    match enquiry_history with
    | .list l => .ok [("total_recent_enquiries", .int (recentLoop now l 0))]
    | .str s =>
      .ok [("total_recent_enquiries",
            .int (recentLoop now (s.toList.map (fun c => .str (String.mk [c]))) 0))]
    | .dict d =>
      .ok [("total_recent_enquiries",
            .int (recentLoop now (d.map (fun p => .str p.1)) 0))]
    | _ => .error .typeError

/-! ### Section extractors -/

/-- The nine "bad" counters summed by `process_account_ratings`. -/
def badAccountFields : List String := [
  "noofotheraccountsbad", "noofretailaccountsbad", "nooftelecomaccountsbad",
  "noofautoloanaccountsbad", "noofhomeloanaccountsbad", "noofjointloanaccountsbad",
  "noofstudyloanaccountsbad", "noofcreditcardaccountsbad", "noofpersonalloanaccountsbad"]

/-- The nine "good" counters (the source's `noofautoloanccountsgood` typo is
preserved verbatim). -/
def goodAccountFields : List String := [
  "noofotheraccountsgood", "noofretailaccountsgood", "nooftelecomaccountsgood",
  "noofautoloanccountsgood", "noofhomeloanaccountsgood", "noofjointloanaccountsgood",
  "noofstudyloanaccountsgood", "noofcreditcardaccountsgood", "noofpersonalloanaccountsgood"]

/-- One addend step of `sum(clean_numeric(v.get(field, 0)) for field in
fields)`. -/
def sumCleanStep (v : PyVal) (acc : PyVal) (f : String) : Except PyErr PyVal := do
  let x ← pyGet v f (.int 0)
  pure (pyAdd acc (clean_numeric x))

/-- `sum(clean_numeric(v.get(field, 0)) for field in fields)`: Python's `sum`
starts from the `int` `0` and adds left to right; the `AttributeError` of
`.get` on a non-dict surfaces at the first field. -/
def sumCleanFields (v : PyVal) (fields : List String) : Except PyErr PyVal :=
  fields.foldlM (sumCleanStep v) (.int 0)

/-- `process_account_ratings`: good/bad account counts. -/
def process_account_ratings (account_rating : PyVal) : Except PyErr Dict := do
  let bad ← sumCleanFields account_rating badAccountFields
  let good ← sumCleanFields account_rating goodAccountFields
  pure [("no_of_bad_accounts", bad), ("no_of_good_accounts", good)]

/-- `process_credit_summary`: debt and arrears information. -/
def process_credit_summary (credit_summary : PyVal) : Except PyErr Dict := do
  let a ← pyGet credit_summary "totaloutstandingdebt" (.int 0)
  let b ← pyGet credit_summary "amountarrear" (.int 0)
  let c ← pyGet credit_summary "totalmonthlyinstalment" (.int 0)
  let d ← pyGet credit_summary "totalnumberofjudgement" (.int 0)
  pure [("total_outstanding_debt", clean_numeric a),
        ("total_arrears", clean_numeric b),
        ("total_monthly_instalment", clean_numeric c),
        ("total_number_of_judgements", clean_numeric d)]

/-- `pat in s` for strings (non-empty `pat`): substring containment. -/
def containsSub (s pat : String) : Bool :=
  2 ≤ (s.splitOn pat).length

/-- Loop state of `process_credit_agreements` (the source's local counters,
in declaration order). -/
structure AgreementState where
  total_duration : PyVal
  valid_durations : Int
  max_overdue : PyVal
  personal_loans : Int
  overdrafts : Int
  written_off : Int

/-- One iteration of the `for account in credit_agreements` loop. -/
def agreementStep (st : AgreementState) (account : PyVal) :
    Except PyErr AgreementState := do
  let descV ← pyGet account "indicatordescription" (.str "")
  let desc := (pyStr descV).toLower
  let personal_loans := if containsSub desc "personal" then st.personal_loans + 1 else st.personal_loans
  let overdrafts := if containsSub desc "overdraft" then st.overdrafts + 1 else st.overdrafts
  let statusV ← pyGet account "accountstatus" .none
  let written_off := if pyEq statusV (.str "WrittenOff") then st.written_off + 1 else st.written_off
  let overdueV ← pyGet account "amountoverdue" (.int 0)
  let overdue := clean_numeric overdueV
  let max_overdue := if pyGt overdue st.max_overdue then overdue else st.max_overdue
  let durV ← pyGet account "loanduration" (.int 0)
  let duration := clean_numeric durV
  if pyGt duration (.int 0) then
    pure { total_duration := pyAdd st.total_duration duration,
           valid_durations := st.valid_durations + 1,
           max_overdue := max_overdue, personal_loans := personal_loans,
           overdrafts := overdrafts, written_off := written_off }
  else
    pure { total_duration := st.total_duration,
           valid_durations := st.valid_durations,
           max_overdue := max_overdue, personal_loans := personal_loans,
           overdrafts := overdrafts, written_off := written_off }

/-- `process_credit_agreements`: analyze loan accounts.  A falsy input keeps
the defaults; iterating a truthy string or dict yields strings whose `.get`
raises `AttributeError` (there is no `try` here); a truthy number raises
`TypeError` at the `for`.  The average duration is Python's true division,
hence a float. -/
def process_credit_agreements (credit_agreements : PyVal) : Except PyErr Dict :=
  if !credit_agreements.truthy then
    .ok [("personal_loan_count", .int 0), ("overdraft_count", .int 0),
         ("max_amount_overdue", .int 0), ("avg_loan_duration_days", .int 0),
         ("written_off_accounts", .int 0)]
  else
    match credit_agreements with
    | .list l => do
      let st ← l.foldlM agreementStep ⟨.int 0, 0, .int 0, 0, 0, 0⟩
      pure [("personal_loan_count", .int st.personal_loans),
            ("overdraft_count", .int st.overdrafts),
            ("max_amount_overdue", st.max_overdue),
            ("avg_loan_duration_days",
              if 0 < st.valid_durations then
                .float (toQ st.total_duration / (st.valid_durations : ℚ))
              else .int 0),
            ("written_off_accounts", .int st.written_off)]
    | .str _ => .error .attributeError
    | .dict _ => .error .attributeError
    | _ => .error .typeError

/-- `process_delinquency`: months in arrears (a single scalar read). -/
def process_delinquency (delinquency_info : PyVal) : Except PyErr Dict :=
  if !delinquency_info.truthy then .ok [("max_months_in_arrears", .int 0)]
  else do
    let m ← pyGet delinquency_info "monthsinarrears" (.int 0)
    pure [("max_months_in_arrears", clean_numeric m)]

/-- `process_personal_details`: demographics (no falsy guard in the source —
the very first `.get` raises on a non-dict). -/
def process_personal_details (today : DateD) (personal_details : PyVal) :
    Except PyErr Dict := do
  let bd ← pyGet personal_details "birthdate" .none
  let age ← calculate_age today bd
  let prop ← pyGet personal_details "propertyownedtype" .none
  let emp ← pyGet personal_details "employerdetail" .none
  pure [("age", age),
        ("property_owned", .int (if prop.truthy then 1 else 0)),
        ("employment_status", .str (if emp.truthy then "Employed" else "Unknown"))]

/-- Membership in the source's sentinel tuple
`(None, '', 'null', '1900-01-01T00:00:00+01:00')` (Python `in` uses `==`). -/
def guarantorSentinel (v : PyVal) : Bool :=
  pyEq v .none || pyEq v (.str "") || pyEq v (.str "null") ||
    pyEq v (.str "1900-01-01T00:00:00+01:00")

/-- `process_guarantor_info`: the count field is normalized first (the dict
literal is evaluated before the `if`), then any non-sentinel field other than
the date of birth flips `has_guarantor`.  `.items()` on a truthy non-dict
raises `AttributeError`. -/
def process_guarantor_info (guarantor_details guarantor_count : PyVal) :
    Except PyErr Dict := do
  let acc ← pyGet guarantor_count "accounts" (.int 0)
  if !guarantor_details.truthy then
    pure [("guarantor_count", clean_numeric acc), ("has_guarantor", .int 0)]
  else
    match guarantor_details with
    | .dict d =>
      if d.any (fun p => p.1 ≠ "guarantordateofbirth" && !guarantorSentinel p.2) then
        pure [("guarantor_count", clean_numeric acc), ("has_guarantor", .int 1)]
      else
        pure [("guarantor_count", clean_numeric acc), ("has_guarantor", .int 0)]
    | _ => .error .attributeError

/-! ### Assembler and batch builder -/

/-- `extract_features`: one Feature Record per report.  The source's first
statement, `credit_report.get('application_id')`, raises `AttributeError`
when the report is not a dict (e.g. `None`); a falsy or `data`-less dict
yields the id-only record; otherwise the seven extractors run against
`data.consumerfullcredit` with empty-dict/empty-list call-site defaults for
missing sub-sections, and their outputs are merged by `dict.update`. -/
def extract_features (today : DateD) (now : Int) (credit_report : PyVal) :
    Except PyErr Dict :=
  match credit_report with
  | .dict d =>
    let features : Dict := [("application_id", dGet d "application_id" .none)]
    if d.isEmpty || !dHasKey d "data" then .ok features
    else do
      let data := dGet d "data" .none
      let consumer_data ← pyGet data "consumerfullcredit" (.dict [])
      let f1 ← process_account_ratings (← pyGet consumer_data "accountrating" (.dict []))
      let f2 ← process_credit_summary (← pyGet consumer_data "creditaccountsummary" (.dict []))
      let f3 ← process_enquiry_history now (← pyGet consumer_data "enquiryhistorytop" (.list []))
      let f4 ← process_credit_agreements (← pyGet consumer_data "creditagreementsummary" (.list []))
      let f5 ← process_delinquency (← pyGet consumer_data "deliquencyinformation" (.dict []))
      let f6 ← process_personal_details today (← pyGet consumer_data "personaldetailssummary" (.dict []))
      let f7 ← process_guarantor_info
                 (← pyGet consumer_data "guarantordetails" (.dict []))
                 (← pyGet consumer_data "guarantorcount" (.dict []))
      pure (dictUpdate (dictUpdate (dictUpdate (dictUpdate (dictUpdate (dictUpdate
              (dictUpdate features f1) f2) f3) f4) f5) f6) f7)
  | _ => .error .attributeError

/-- The filter of `process_reports`: keep dict reports carrying an
`application_id` key; everything else is silently skipped. -/
def validReport (r : PyVal) : Bool :=
  match r with
  | .dict d => dHasKey d "application_id"
  | _ => false

/-- `pd.DataFrame(rows).set_index('application_id')`: the frame's columns are
the union of the records' keys, and `set_index` raises `KeyError` when
`application_id` is not among them — in particular on the empty frame.  The
table is modelled by its row records in input order; the index values remain
readable through the rows' `application_id` entries (pandas does not
deduplicate a non-unique index). -/
def setIndexApplicationId (rows : List Dict) : Except PyErr (List Dict) :=
  if rows.any (fun r => dHasKey r "application_id") then .ok rows
  else .error .keyError

/-- `process_reports`: filter the batch, assemble each survivor, tabulate. -/
def process_reports (today : DateD) (now : Int) (credit_reports : List PyVal) :
    Except PyErr (List Dict) := do
  let rows ← (credit_reports.filter validReport).mapM (extract_features today now)
  setIndexApplicationId rows

/-! ### Proof support -/

/-- Bind on `Except` propagates success. -/
@[simp] theorem bind_ok_eq {α β : Type} (a : α) (f : α → Except PyErr β) :
    (Except.ok a >>= f) = f a := rfl

/-- Bind on `Except` propagates failure. -/
@[simp] theorem bind_error_eq {α β : Type} (e : PyErr) (f : α → Except PyErr β) :
    ((Except.error e : Except PyErr α) >>= f) = .error e := rfl

/-- Replacing the value at key `k` does not disturb lookups of other keys. -/
theorem lookup_map_setKey (d : Dict) (k k' : String) (v : PyVal) (h : ¬(k' = k)) :
    (d.map (fun p => if p.1 = k then (k, v) else p)).lookup k' = d.lookup k' := by
  induction d with
  | nil => rfl
  | cons p d ih =>
    rcases p with ⟨pk, pv⟩
    by_cases hp : pk = k
    · subst hp
      have hiv : (if (pk, pv).1 = pk then (pk, v) else (pk, pv)) = (pk, v) := by simp
      have hk : (k' == pk) = false := by simp [h]
      rw [List.map_cons, hiv, List.lookup_cons, List.lookup_cons, hk]
      exact ih
    · have hiv : (if (pk, pv).1 = k then (k, v) else (pk, pv)) = (pk, pv) := by simp [hp]
      rw [List.map_cons, hiv, List.lookup_cons, List.lookup_cons]
      cases hk : k' == pk
      · simpa using ih
      · rfl

/-- `dictSet` leaves lookups of other keys unchanged. -/
theorem lookup_dictSet_ne (d : Dict) (k k' : String) (v : PyVal) (h : ¬(k' = k)) :
    (dictSet d k v).lookup k' = d.lookup k' := by
  unfold dictSet
  split
  · exact lookup_map_setKey d k k' v h
  · rw [List.lookup_append]
    have h1 : ([(k, v)] : Dict).lookup k' = Option.none := by
      rw [List.lookup_cons, show (k' == k) = false by simp [h]]
      rfl
    rw [h1]
    cases d.lookup k' <;> rfl

/-- `dict.update` with a record whose keys all differ from `k'` leaves the
lookup of `k'` unchanged. -/
theorem lookup_dictUpdate_ne (d e : Dict) (k' : String)
    (h : ∀ p ∈ e, ¬(p.1 = k')) :
    (dictUpdate d e).lookup k' = d.lookup k' := by
  induction e generalizing d with
  | nil => rfl
  | cons p e ih =>
    have hd : dictUpdate d (p :: e) = dictUpdate (dictSet d p.1 p.2) e := rfl
    rw [hd, ih _ (fun q hq => h q (List.mem_cons_of_mem _ hq)),
        lookup_dictSet_ne _ _ _ _ (fun hk => h p (List.mem_cons_self p e) hk.symm)]

/-- Keys drawn from a list avoiding `k` avoid `k`. -/
theorem keys_ne_of_mem {l : List String} {k : String}
    (h : ∀ x ∈ l, ¬(x = k)) (f : Dict) (hf : f.map Prod.fst = l) :
    ∀ p ∈ f, ¬(p.1 = k) := by
  intro p hp
  exact h p.1 (hf ▸ List.mem_map_of_mem Prod.fst hp)

/-- Folding `sumCleanStep` over a dict input never fails. -/
theorem foldlM_sumCleanStep_dict (d : Dict) (fields : List String) (acc : PyVal) :
    ∃ x, fields.foldlM (sumCleanStep (.dict d)) acc = .ok x := by
  induction fields generalizing acc with
  | nil => exact ⟨acc, rfl⟩
  | cons f fs ih => exact ih _

/-- The `application_id` carried by a feature record. -/
def recordAppId (r : Dict) : PyVal := dGet r "application_id" .none

/-- The `application_id` carried by a report document. -/
def reportAppId (r : PyVal) : PyVal :=
  match r with
  | .dict d => dGet d "application_id" .none
  | _ => .none

/-- A successful account-ratings extraction yields exactly the two fixed
keys. -/
theorem process_account_ratings_keys (v : PyVal) (f : Dict)
    (h : process_account_ratings v = .ok f) :
    f.map Prod.fst = ["no_of_bad_accounts", "no_of_good_accounts"] := by
  cases v with
  | dict d =>
    obtain ⟨x, hx⟩ := foldlM_sumCleanStep_dict d badAccountFields (.int 0)
    obtain ⟨y, hy⟩ := foldlM_sumCleanStep_dict d goodAccountFields (.int 0)
    unfold process_account_ratings sumCleanFields at h
    rw [hx, bind_ok_eq, hy, bind_ok_eq] at h
    rw [← Except.ok.inj h]; rfl
  | none => exact Except.noConfusion h
  | int n => exact Except.noConfusion h
  | float q => exact Except.noConfusion h
  | str s => exact Except.noConfusion h
  | list l => exact Except.noConfusion h

/-- A successful credit-summary extraction yields exactly its four fixed
keys. -/
theorem process_credit_summary_keys (v : PyVal) (f : Dict)
    (h : process_credit_summary v = .ok f) :
    f.map Prod.fst = ["total_outstanding_debt", "total_arrears",
      "total_monthly_instalment", "total_number_of_judgements"] := by
  cases v with
  | dict d => rw [← Except.ok.inj h]; rfl
  | none => exact Except.noConfusion h
  | int n => exact Except.noConfusion h
  | float q => exact Except.noConfusion h
  | str s => exact Except.noConfusion h
  | list l => exact Except.noConfusion h

/-- A successful enquiry-history extraction yields exactly its one key. -/
theorem process_enquiry_history_keys (now : Int) (v : PyVal) (f : Dict)
    (h : process_enquiry_history now v = .ok f) :
    f.map Prod.fst = ["total_recent_enquiries"] := by
  unfold process_enquiry_history at h
  split at h
  · rw [← Except.ok.inj h]; rfl
  · split at h
    · rw [← Except.ok.inj h]; rfl
    · rw [← Except.ok.inj h]; rfl
    · rw [← Except.ok.inj h]; rfl
    · exact Except.noConfusion h

/-- A successful credit-agreements extraction yields exactly its five fixed
keys. -/
theorem process_credit_agreements_keys (v : PyVal) (f : Dict)
    (h : process_credit_agreements v = .ok f) :
    f.map Prod.fst = ["personal_loan_count", "overdraft_count",
      "max_amount_overdue", "avg_loan_duration_days", "written_off_accounts"] := by
  unfold process_credit_agreements at h
  split at h
  · rw [← Except.ok.inj h]; rfl
  · cases v with
    | list l =>
      dsimp only at h
      cases hst : l.foldlM agreementStep ⟨.int 0, 0, .int 0, 0, 0, 0⟩ with
      | error e => rw [hst, bind_error_eq] at h; exact Except.noConfusion h
      | ok st => rw [hst, bind_ok_eq] at h; rw [← Except.ok.inj h]; rfl
    | none => exact Except.noConfusion h
    | int n => exact Except.noConfusion h
    | float q => exact Except.noConfusion h
    | str s => exact Except.noConfusion h
    | dict d => exact Except.noConfusion h

/-- A successful delinquency extraction yields exactly its one key. -/
theorem process_delinquency_keys (v : PyVal) (f : Dict)
    (h : process_delinquency v = .ok f) :
    f.map Prod.fst = ["max_months_in_arrears"] := by
  unfold process_delinquency at h
  split at h
  · rw [← Except.ok.inj h]; rfl
  · cases hm : pyGet v "monthsinarrears" (.int 0) with
    | error e => rw [hm, bind_error_eq] at h; exact Except.noConfusion h
    | ok m => rw [hm, bind_ok_eq] at h; rw [← Except.ok.inj h]; rfl

/-- A successful personal-details extraction yields exactly its three fixed
keys. -/
theorem process_personal_details_keys (today : DateD) (v : PyVal) (f : Dict)
    (h : process_personal_details today v = .ok f) :
    f.map Prod.fst = ["age", "property_owned", "employment_status"] := by
  unfold process_personal_details at h
  cases hbd : pyGet v "birthdate" .none with
  | error e => rw [hbd, bind_error_eq] at h; exact Except.noConfusion h
  | ok bd =>
    rw [hbd, bind_ok_eq] at h
    cases hage : calculate_age today bd with
    | error e => rw [hage, bind_error_eq] at h; exact Except.noConfusion h
    | ok age =>
      rw [hage, bind_ok_eq] at h
      cases hp : pyGet v "propertyownedtype" .none with
      | error e => rw [hp, bind_error_eq] at h; exact Except.noConfusion h
      | ok prop =>
        rw [hp, bind_ok_eq] at h
        cases he : pyGet v "employerdetail" .none with
        | error e => rw [he, bind_error_eq] at h; exact Except.noConfusion h
        | ok emp => rw [he, bind_ok_eq] at h; rw [← Except.ok.inj h]; rfl

/-- A successful guarantor extraction yields exactly its two fixed keys. -/
theorem process_guarantor_info_keys (gd gc : PyVal) (f : Dict)
    (h : process_guarantor_info gd gc = .ok f) :
    f.map Prod.fst = ["guarantor_count", "has_guarantor"] := by
  unfold process_guarantor_info at h
  cases hacc : pyGet gc "accounts" (.int 0) with
  | error e => rw [hacc, bind_error_eq] at h; exact Except.noConfusion h
  | ok acc =>
    rw [hacc, bind_ok_eq] at h
    split at h
    · rw [← Except.ok.inj h]; rfl
    · split at h
      · split at h
        · rw [← Except.ok.inj h]; rfl
        · rw [← Except.ok.inj h]; rfl
      · exact Except.noConfusion h

/-- `extract_features` tags its record with exactly the report's
`application_id`: the seven extractor outputs never collide with it. -/
theorem extract_features_appId (today : DateD) (now : Int) (r : PyVal) (row : Dict)
    (h : extract_features today now r = .ok row) :
    recordAppId row = reportAppId r := by
  cases r with
  | dict d =>
    unfold extract_features at h
    dsimp only at h
    split at h
    · rw [← Except.ok.inj h]
      rfl
    · cases h0 : pyGet (dGet d "data" .none) "consumerfullcredit" (.dict []) with
      | error e => rw [h0, bind_error_eq] at h; exact Except.noConfusion h
      | ok consumer =>
        rw [h0, bind_ok_eq] at h
        cases consumer with
        | dict dc =>
          dsimp only [pyGet, bind_ok_eq] at h
          cases h1 : process_account_ratings (dGet dc "accountrating" (.dict [])) with
          | error e => rw [h1, bind_error_eq] at h; exact Except.noConfusion h
          | ok f1 =>
          rw [h1, bind_ok_eq] at h
          cases h2 : process_credit_summary (dGet dc "creditaccountsummary" (.dict [])) with
          | error e => rw [h2, bind_error_eq] at h; exact Except.noConfusion h
          | ok f2 =>
          rw [h2, bind_ok_eq] at h
          cases h3 : process_enquiry_history now (dGet dc "enquiryhistorytop" (.list [])) with
          | error e => rw [h3, bind_error_eq] at h; exact Except.noConfusion h
          | ok f3 =>
          rw [h3, bind_ok_eq] at h
          cases h4 : process_credit_agreements (dGet dc "creditagreementsummary" (.list [])) with
          | error e => rw [h4, bind_error_eq] at h; exact Except.noConfusion h
          | ok f4 =>
          rw [h4, bind_ok_eq] at h
          cases h5 : process_delinquency (dGet dc "deliquencyinformation" (.dict [])) with
          | error e => rw [h5, bind_error_eq] at h; exact Except.noConfusion h
          | ok f5 =>
          rw [h5, bind_ok_eq] at h
          cases h6 : process_personal_details today (dGet dc "personaldetailssummary" (.dict [])) with
          | error e => rw [h6, bind_error_eq] at h; exact Except.noConfusion h
          | ok f6 =>
          rw [h6, bind_ok_eq] at h
          cases h7 : process_guarantor_info (dGet dc "guarantordetails" (.dict []))
              (dGet dc "guarantorcount" (.dict [])) with
          | error e => rw [h7, bind_error_eq] at h; exact Except.noConfusion h
          | ok f7 =>
          rw [h7, bind_ok_eq] at h
          rw [← Except.ok.inj h]
          unfold recordAppId dGet
          rw [lookup_dictUpdate_ne _ _ _
                (keys_ne_of_mem (by decide) f7 (process_guarantor_info_keys _ _ _ h7)),
              lookup_dictUpdate_ne _ _ _
                (keys_ne_of_mem (by decide) f6 (process_personal_details_keys _ _ _ h6)),
              lookup_dictUpdate_ne _ _ _
                (keys_ne_of_mem (by decide) f5 (process_delinquency_keys _ _ h5)),
              lookup_dictUpdate_ne _ _ _
                (keys_ne_of_mem (by decide) f4 (process_credit_agreements_keys _ _ h4)),
              lookup_dictUpdate_ne _ _ _
                (keys_ne_of_mem (by decide) f3 (process_enquiry_history_keys _ _ _ h3)),
              lookup_dictUpdate_ne _ _ _
                (keys_ne_of_mem (by decide) f2 (process_credit_summary_keys _ _ h2)),
              lookup_dictUpdate_ne _ _ _
                (keys_ne_of_mem (by decide) f1 (process_account_ratings_keys _ _ h1))]
          rfl
        | none => exact Except.noConfusion h
        | int n => exact Except.noConfusion h
        | float q => exact Except.noConfusion h
        | str s => exact Except.noConfusion h
        | list l => exact Except.noConfusion h
  | none => exact Except.noConfusion h
  | int n => exact Except.noConfusion h
  | float q => exact Except.noConfusion h
  | str s => exact Except.noConfusion h
  | list l => exact Except.noConfusion h

/-- Successful batch assembly maps each surviving report to a record carrying
its `application_id`. -/
theorem mapM_extract_appIds (today : DateD) (now : Int) (l : List PyVal)
    (ys : List Dict) (h : l.mapM (extract_features today now) = .ok ys) :
    ys.map recordAppId = l.map reportAppId := by
  induction l generalizing ys with
  | nil =>
    rw [List.mapM_nil] at h
    rw [← Except.ok.inj h]
    rfl
  | cons a l ih =>
    rw [List.mapM_cons] at h
    cases ha : extract_features today now a with
    | error e => rw [ha, bind_error_eq] at h; exact Except.noConfusion h
    | ok y =>
      rw [ha, bind_ok_eq] at h
      cases hl : l.mapM (extract_features today now) with
      | error e => rw [hl, bind_error_eq] at h; exact Except.noConfusion h
      | ok ys' =>
        rw [hl, bind_ok_eq] at h
        rw [← Except.ok.inj h, List.map_cons, List.map_cons,
            extract_features_appId today now a y ha, ih ys' hl]

/-- A successful `process_reports` is exactly a successful assembly of the
surviving reports. -/
theorem process_reports_ok_rows (today : DateD) (now : Int)
    (reports : List PyVal) (rows : List Dict)
    (h : process_reports today now reports = .ok rows) :
    (reports.filter validReport).mapM (extract_features today now) = .ok rows := by
  unfold process_reports at h
  cases hm : (reports.filter validReport).mapM (extract_features today now) with
  | error e => rw [hm, bind_error_eq] at h; exact Except.noConfusion h
  | ok rows' =>
    rw [hm, bind_ok_eq] at h
    unfold setIndexApplicationId at h
    split at h
    · rw [Except.ok.inj h]
    · exact Except.noConfusion h

/-- Row identifiers of a successful batch, in input order: one row per
surviving report, carrying that report's `application_id`. -/
theorem process_reports_ids (today : DateD) (now : Int)
    (reports : List PyVal) (rows : List Dict)
    (h : process_reports today now reports = .ok rows) :
    rows.map recordAppId = (reports.filter validReport).map reportAppId :=
  mapM_extract_appIds today now _ rows (process_reports_ok_rows today now reports rows h)

/-! ### Parser and strip lemmas -/

/-- A successful `%d/%m/%Y` parse starts with a digit. -/
theorem parseDMYList_head_digit (cs : List Char) (b : DateD)
    (h : parseDMYList cs = some b) :
    ∃ c t, cs = c :: t ∧ c.isDigit = true := by
  cases cs with
  | nil => exact absurd h (by simp [parseDMYList, takeDigits])
  | cons c t =>
    refine ⟨c, t, rfl, ?_⟩
    by_contra hc
    have hc2 : c.isDigit = false := by simpa using hc
    simp [parseDMYList, takeDigits, hc2] at h

/-- `dropWhile` over `xs ++ [c]` keeps the final `c` when `p c` fails. -/
theorem dropWhile_append_last (p : Char → Bool) (xs : List Char) (c : Char)
    (hc : p c = false) :
    ∃ ys, List.dropWhile p (xs ++ [c]) = ys ++ [c] := by
  induction xs with
  | nil => exact ⟨[], by simp [List.dropWhile_cons, hc]⟩
  | cons x xs ih =>
    cases hx : p x
    · exact ⟨x :: xs, by simp [List.dropWhile_cons, hx]⟩
    · obtain ⟨ys, hys⟩ := ih
      exact ⟨ys, by simp [List.dropWhile_cons, hx, hys]⟩

/-- When `str.strip()` leaves `""` or `"-"`, the first character of the
original string was not a digit. -/
theorem pyStripL_sentinel_head (c : Char) (t : List Char)
    (h : pyStripL (c :: t) = [] ∨ pyStripL (c :: t) = ['-']) :
    c.isDigit = false := by
  cases hw : isWS c with
  | true =>
    have hc : ((c = ' ' ∨ c = '\t') ∨ c = '\n') ∨ c = '\r' := by
      simpa [isWS] using hw
    rcases hc with ((rfl | rfl) | rfl) | rfl <;> rfl
  | false =>
    have hdrop : List.dropWhile isWS (c :: t) = c :: t := by
      simp [List.dropWhile_cons, hw]
    obtain ⟨ys, hys⟩ := dropWhile_append_last isWS t.reverse c hw
    have hform : pyStripL (c :: t) = c :: ys.reverse := by
      unfold pyStripL
      rw [hdrop, show (c :: t).reverse = t.reverse ++ [c] by simp, hys]
      simp
    rcases h with h | h
    · rw [hform] at h
      exact absurd h (by simp)
    · rw [hform] at h
      have hc : c = '-' := (List.cons.inj h).1
      subst hc
      rfl

/-! ### Enquiry-loop counting -/

/-- Whether the enquiry loop counts an entry: its step succeeds with a
timestamp inside the 90-day window. -/
def enquiryCounted (now : Int) (e : PyVal) : Bool :=
  match enquiryStep now e with
  | .ok true => true
  | _ => false

/-- The source loop computes a `countP` of the entries. -/
theorem recentLoop_eq_countP (now : Int) (l : List PyVal) (acc : Int) :
    recentLoop now l acc = acc + l.countP (enquiryCounted now) := by
  induction l generalizing acc with
  | nil => simp [recentLoop]
  | cons e l ih =>
    rw [List.countP_cons]
    cases hs : enquiryStep now e with
    | error er =>
      simp only [recentLoop, hs, enquiryCounted, ih]
      push_cast
      ring
    | ok b =>
      cases b
      · simp only [recentLoop, hs, enquiryCounted, ih]
        push_cast
        ring
      · simp only [recentLoop, hs, enquiryCounted, ih]
        push_cast
        ring

/-- `process_enquiry_history` on a list input counts exactly the entries the
loop accepts. -/
theorem process_enquiry_history_list (now : Int) (l : List PyVal) :
    process_enquiry_history now (.list l) =
      .ok [("total_recent_enquiries", .int (l.countP (enquiryCounted now)))] := by
  cases l with
  | nil => rfl
  | cons e t =>
    simp [process_enquiry_history, PyVal.truthy, recentLoop_eq_countP]

/-- The fixed evaluation date 2024-06-14 used by concrete instances. -/
def today0 : DateD := ⟨2024, 6, 14⟩

/-- The fixed evaluation instant 2024-06-14 12:00:00. -/
def now0 : Int := epochSecs 2024 6 14 12 0 0

/-! ### Claims -/

/-- C1 is false as stated: a wrong-shaped (string) sub-section makes
`process_account_ratings` raise `AttributeError` at the first `.get` instead
of returning its default-filled mapping. -/
theorem C1_counterexample :
    process_account_ratings (.str "not a mapping") = .error .attributeError := rfl

/-- C1 (amended): when a sub-section is missing, the assembler substitutes an
empty mapping/sequence, and on those defaults every one of the seven
extractors returns its full default-filled record without raising; but a
wrong-shaped sub-section is not tolerated — a string where a mapping is
expected makes the mapping-shaped extractors raise `AttributeError` rather
than return defaults. -/
theorem C1_amended :
    process_account_ratings (.dict []) =
      .ok [("no_of_bad_accounts", .int 0), ("no_of_good_accounts", .int 0)] ∧
    process_credit_summary (.dict []) =
      .ok [("total_outstanding_debt", .int 0), ("total_arrears", .int 0),
           ("total_monthly_instalment", .int 0), ("total_number_of_judgements", .int 0)] ∧
    (∀ now : Int, process_enquiry_history now (.list []) =
      .ok [("total_recent_enquiries", .int 0)]) ∧
    process_credit_agreements (.list []) =
      .ok [("personal_loan_count", .int 0), ("overdraft_count", .int 0),
           ("max_amount_overdue", .int 0), ("avg_loan_duration_days", .int 0),
           ("written_off_accounts", .int 0)] ∧
    process_delinquency (.dict []) = .ok [("max_months_in_arrears", .int 0)] ∧
    (∀ today : DateD, process_personal_details today (.dict []) =
      .ok [("age", .none), ("property_owned", .int 0),
           ("employment_status", .str "Unknown")]) ∧
    process_guarantor_info (.dict []) (.dict []) =
      .ok [("guarantor_count", .int 0), ("has_guarantor", .int 0)] ∧
    (∀ s : String, process_account_ratings (.str s) = .error .attributeError) ∧
    (∀ s : String, process_credit_summary (.str s) = .error .attributeError) :=
  ⟨rfl, rfl, fun _ => rfl, rfl, rfl, fun _ => rfl, rfl, fun _ => rfl, fun _ => rfl⟩

/-- C3 is false as stated: on the falsy report `None` the assembler raises
`AttributeError` at `credit_report.get('application_id')` before its falsy
check runs. -/
theorem C3_counterexample :
    extract_features today0 now0 PyVal.none = .error .attributeError := rfl

/-- C3 (amended): for every dict report without a top-level `data` key
(which includes the falsy empty dict), the assembler returns the record
containing only `application_id`, propagating whatever identifier is present;
a falsy non-dict report such as `None` instead raises `AttributeError`. -/
theorem C3_amended (today : DateD) (now : Int) (d : Dict)
    (h : d.lookup "data" = Option.none) :
    extract_features today now (.dict d) =
      .ok [("application_id", dGet d "application_id" .none)] := by
  have hk : dHasKey d "data" = false := by
    unfold dHasKey
    rw [List.any_eq_false]
    intro p hp
    have h2 := List.lookup_eq_none_iff.mp h p hp
    simp only [bne_iff_ne, ne_eq] at h2
    simp only [decide_eq_true_eq]
    exact fun hh => h2 hh.symm
  unfold extract_features
  dsimp only
  rw [hk, Bool.not_false, Bool.or_true]
  rfl

/-- Witness for C3 (amended): the spec's own example, a report with
`application_id` "A1" and no `data`, maps to exactly the id-only record. -/
theorem C3_witness :
    ([("application_id", PyVal.str "A1")] : Dict).lookup "data" = Option.none ∧
    extract_features today0 now0 (.dict [("application_id", .str "A1")]) =
      .ok [("application_id", .str "A1")] :=
  ⟨rfl, C3_amended today0 now0 [("application_id", PyVal.str "A1")] rfl⟩

/-- C4 is false as stated: a truthy non-string "unparseable value" such as
the integer `5` raises `AttributeError` at `.strip()`, which sits outside the
`try`. -/
theorem C4_counterexample :
    calculate_age today0 (.int 5) = .error .attributeError := rfl

/-- C4 (amended): for every string whose `%d/%m/%Y` parse fails — empty,
whitespace-only, `"-"`, or otherwise malformed — and for falsy inputs,
`calculate_age` returns `None` (age absent, not 0) and raises nothing; a
truthy non-string input instead raises `AttributeError`. -/
theorem C4_amended (today : DateD) (s : String)
    (h : parseDMY s = Option.none) :
    calculate_age today (.str s) = .ok .none ∧
    calculate_age today .none = .ok .none ∧
    calculate_age today (.int 5) = .error .attributeError := by
  refine ⟨?_, rfl, rfl⟩
  unfold calculate_age
  split
  · rfl
  · dsimp only
    split
    · rfl
    · rw [h]

/-- Witness for C4 (amended): the sentinel `"-"` does not parse and yields
`None`. -/
theorem C4_witness :
    parseDMY "-" = Option.none ∧ calculate_age today0 (.str "-") = .ok .none :=
  ⟨rfl, (C4_amended today0 "-" rfl).1⟩

/-- C5: the Numeric Normalizer returns numbers unchanged, sends `None` and
(after trimming) the sentinel strings `""`, `"-"`, `"null"`, `"None"` to `0`,
and on every other string keeps only digits and dots and parses the
remainder, with `0` on parse failure; `"1,234.56"` yields `1234.56` and
garbage yields `0`.  Totality of the definition reflects that no exception
escapes the routine. -/
theorem C5_holds :
    clean_numeric .none = .int 0 ∧
    (∀ n : Int, clean_numeric (.int n) = .int n) ∧
    (∀ q : ℚ, clean_numeric (.float q) = .float q) ∧
    (∀ s : String,
      clean_numeric (.str s) =
        if pyStrip s = "" ∨ pyStrip s = "-" ∨ pyStrip s = "null" ∨ pyStrip s = "None"
        then .int 0
        else
          match parsePyFloat (stripNonDigitDot s) with
          | some q => .float q
          | Option.none => .int 0) ∧
    clean_numeric (.str "1,234.56") = .float (123456 / 100 : ℚ) ∧
    clean_numeric (.str " None ") = .int 0 ∧
    clean_numeric (.str "abc-def") = .int 0 := by
  refine ⟨rfl, fun n => rfl, fun q => rfl, fun s => ?_, ?_, rfl, rfl⟩
  case refine_2 =>
    have h1 : clean_numeric (.str "1,234.56") =
        .float ((1234 : ℚ) + (56 : ℚ) / 10 ^ 2) := rfl
    rw [h1, show ((1234 : ℚ) + (56 : ℚ) / 10 ^ 2) = 123456 / 100 by norm_num]
  by_cases hs : pyStrip s = "" ∨ pyStrip s = "-" ∨ pyStrip s = "null" ∨ pyStrip s = "None"
  · rw [if_pos hs]
    unfold clean_numeric
    rcases hs with h | h | h | h <;> simp [h]
  · rw [if_neg hs]
    push_neg at hs
    obtain ⟨h1, h2, h3, h4⟩ := hs
    unfold clean_numeric
    simp [h1, h2, h3, h4]

/-- C9: a batch in which no report survives the filter — in particular the
empty batch — makes `process_reports` raise `KeyError` at
`set_index('application_id')` on the empty frame instead of returning an
empty table. -/
theorem C9_holds :
    (∀ (today : DateD) (now : Int),
      process_reports today now [] = .error .keyError) ∧
    (∀ (today : DateD) (now : Int) (reports : List PyVal),
      (∀ r ∈ reports, validReport r = false) →
      process_reports today now reports = .error .keyError) := by
  constructor
  · intro today now
    rfl
  · intro today now reports h
    have hf : reports.filter validReport = [] := by
      rw [List.filter_eq_nil_iff]
      intro a ha
      simp [h a ha]
    unfold process_reports
    rw [hf]
    rfl

/-- Witness for C9: a batch holding one plain string has no survivors and
raises `KeyError`. -/
theorem C9_witness :
    (∀ r ∈ [PyVal.str "junk"], validReport r = false) ∧
    process_reports today0 now0 [PyVal.str "junk"] = .error .keyError :=
  ⟨by intro r hr; simp at hr; subst hr; rfl,
   C9_holds.2 today0 now0 [PyVal.str "junk"]
     (by intro r hr; simp at hr; subst hr; rfl)⟩

/-- C2 is false as stated: two reports sharing `application_id` "A1"
produce a table with two rows for that identifier — `set_index` does not
deduplicate. -/
theorem C2_counterexample :
    process_reports today0 now0
      [.dict [("application_id", .str "A1")], .dict [("application_id", .str "A1")]] =
      .ok [[("application_id", .str "A1")], [("application_id", .str "A1")]] ∧
    ([[("application_id", PyVal.str "A1")], [("application_id", PyVal.str "A1")]] :
      List Dict).countP (fun r => pyEq (recordAppId r) (.str "A1")) = 2 :=
  ⟨rfl, rfl⟩

/-- C2 (amended): the table is keyed by `application_id` but the key is not
unique — the builder emits exactly one row per surviving report, in input
order, each carrying that report's `application_id`, so duplicate
identifiers yield duplicate rows rather than being collapsed by any
deterministic rule. -/
theorem C2_amended (today : DateD) (now : Int) (reports : List PyVal)
    (rows : List Dict) (h : process_reports today now reports = .ok rows) :
    rows.map recordAppId = (reports.filter validReport).map reportAppId :=
  process_reports_ids today now reports rows h

/-- Witness for C2 (amended) at a one-report batch. -/
theorem C2_witness :
    process_reports today0 now0 [PyVal.dict [("application_id", PyVal.str "B7")]] =
      .ok [[("application_id", PyVal.str "B7")]] ∧
    ([[("application_id", PyVal.str "B7")]] : List Dict).map recordAppId =
      ([PyVal.dict [("application_id", PyVal.str "B7")]].filter validReport).map
        reportAppId :=
  ⟨rfl, C2_amended today0 now0 [PyVal.dict [("application_id", PyVal.str "B7")]]
      [[("application_id", PyVal.str "B7")]] rfl⟩

/-- C7 is false as stated: a surviving report whose `data` field has the
wrong shape makes the whole batch raise `AttributeError`, so no table with
"one row per survivor" is produced. -/
theorem C7_counterexample :
    process_reports today0 now0
      [.dict [("application_id", .str "A"), ("data", .str "wrong shape")]] =
      .error .attributeError := rfl

/-- C7 (amended): whenever the batch builder returns a table at all, it has
exactly one row per record-shaped input report carrying `application_id`,
and every other entry is silently dropped; the spec's 3-report example (one
plain string, two valid reports) yields exactly 2 rows.  A survivor with a
wrong-shaped `data` sub-tree instead aborts the batch with an exception. -/
theorem C7_amended :
    (∀ (today : DateD) (now : Int) (reports : List PyVal) (rows : List Dict),
      process_reports today now reports = .ok rows →
      rows.length = reports.countP validReport) ∧
    process_reports today0 now0
      [.str "plain string", .dict [("application_id", .str "A1")],
       .dict [("application_id", .str "A2")]] =
      .ok [[("application_id", .str "A1")], [("application_id", .str "A2")]] := by
  constructor
  · intro today now reports rows h
    have hids := process_reports_ids today now reports rows h
    have hlen := congrArg List.length hids
    simpa [List.countP_eq_length_filter] using hlen
  · rfl

/-- Witness for C7 (amended) at the spec's 3-report batch. -/
theorem C7_witness :
    process_reports today0 now0
      [PyVal.str "plain string", PyVal.dict [("application_id", PyVal.str "A1")],
       PyVal.dict [("application_id", PyVal.str "A2")]] =
      .ok [[("application_id", PyVal.str "A1")], [("application_id", PyVal.str "A2")]] ∧
    ([[("application_id", PyVal.str "A1")], [("application_id", PyVal.str "A2")]] :
      List Dict).length =
      List.countP validReport
        [PyVal.str "plain string", PyVal.dict [("application_id", PyVal.str "A1")],
         PyVal.dict [("application_id", PyVal.str "A2")]] :=
  ⟨rfl, C7_amended.1 today0 now0
    [PyVal.str "plain string", PyVal.dict [("application_id", PyVal.str "A1")],
     PyVal.dict [("application_id", PyVal.str "A2")]]
    [[("application_id", PyVal.str "A1")], [("application_id", PyVal.str "A2")]] rfl⟩

/-- C6 is false as stated: an entry dated strictly in the future — not
within the last 90 days — is still counted (here: now is the epoch and the
entry is 10 days later). -/
theorem C6_counterexample :
    parseDateTime "11/01/1970 00:00:00" = some 864000 ∧ (0 : Int) < 864000 ∧
    process_enquiry_history 0
      (.list [.dict [("daterequested", .str "11/01/1970 00:00:00")]]) =
      .ok [("total_recent_enquiries", .int 1)] :=
  ⟨rfl, by decide, rfl⟩

/-- C6 (amended): `total_recent_enquiries` counts exactly the entries whose
`daterequested` parses as `%d/%m/%Y %H:%M:%S` to a timestamp `t` with
`⌊(now − t)/86400 s⌋ ≤ 90` — i.e. anything newer than 91 days ago, future
timestamps included; entries with a missing or unparseable timestamp are
skipped without aborting the count; the 10-days-ago entry is counted and the
200-days-ago one is not. -/
theorem C6_amended :
    (∀ (now : Int) (l : List PyVal),
      process_enquiry_history now (.list l) =
        .ok [("total_recent_enquiries", .int (l.countP (enquiryCounted now)))]) ∧
    (∀ (now t : Int) (d : Dict) (s : String),
      d.lookup "daterequested" = some (.str s) → parseDateTime s = some t →
      enquiryCounted now (.dict d) = decide (Int.fdiv (now - t) 86400 ≤ 90)) ∧
    (∀ (now : Int) (d : Dict) (s : String),
      d.lookup "daterequested" = some (.str s) → parseDateTime s = Option.none →
      enquiryCounted now (.dict d) = false) ∧
    process_enquiry_history now0
      (.list [.dict [("daterequested", .str "04/06/2024 10:00:00")],
              .dict [("daterequested", .str "27/11/2023 10:00:00")],
              .dict [("daterequested", .str "garbage")]]) =
      .ok [("total_recent_enquiries", .int 1)] := by
  refine ⟨process_enquiry_history_list, ?_, ?_, rfl⟩
  · intro now t d s hl hp
    have hstep : enquiryStep now (.dict d) =
        .ok (decide (Int.fdiv (now - t) 86400 ≤ 90)) := by
      unfold enquiryStep
      rw [show pySubscript (PyVal.dict d) "daterequested" = .ok (.str s) by
            simp only [pySubscript, hl],
          bind_ok_eq,
          show pyStrptimeDT (PyVal.str s) = .ok t by simp only [pyStrptimeDT, hp],
          bind_ok_eq]
      rfl
    unfold enquiryCounted
    rw [hstep]
    cases hX : decide (Int.fdiv (now - t) 86400 ≤ 90) <;> rfl
  · intro now d s hl hp
    have hstep : enquiryStep now (.dict d) = .error .valueError := by
      unfold enquiryStep
      rw [show pySubscript (PyVal.dict d) "daterequested" = .ok (.str s) by
            simp only [pySubscript, hl],
          bind_ok_eq,
          show pyStrptimeDT (PyVal.str s) = .error .valueError by
            simp only [pyStrptimeDT, hp]]
      rfl
    unfold enquiryCounted
    rw [hstep]

/-- Witness for C6 (amended): the 10-days-ago entry satisfies the window
predicate. -/
theorem C6_witness :
    ([("daterequested", PyVal.str "04/06/2024 10:00:00")] : Dict).lookup
      "daterequested" = some (.str "04/06/2024 10:00:00") ∧
    parseDateTime "04/06/2024 10:00:00" = some (epochSecs 2024 6 4 10 0 0) ∧
    enquiryCounted now0 (.dict [("daterequested", PyVal.str "04/06/2024 10:00:00")]) =
      decide (Int.fdiv (now0 - epochSecs 2024 6 4 10 0 0) 86400 ≤ 90) :=
  ⟨rfl, rfl, C6_amended.2.1 now0 (epochSecs 2024 6 4 10 0 0)
    [("daterequested", PyVal.str "04/06/2024 10:00:00")] "04/06/2024 10:00:00" rfl rfl⟩

/-- C10: an enquiry whose parsed timestamp lies strictly in the future is
counted — `(now - t).days` is negative, hence at most 90; the window has no
lower bound at zero elapsed days. -/
theorem C10_holds (now t : Int) (s : String)
    (hp : parseDateTime s = some t) (hf : now < t) :
    enquiryCounted now (.dict [("daterequested", .str s)]) = true ∧
    process_enquiry_history now (.list [.dict [("daterequested", .str s)]]) =
      .ok [("total_recent_enquiries", .int 1)] := by
  have hneg : now - t < 0 := by omega
  have hlt := Int.fdiv_neg' hneg (by norm_num : (0 : Int) < 86400)
  have hle : Int.fdiv (now - t) 86400 ≤ 90 := by omega
  have hstep : enquiryStep now (.dict [("daterequested", .str s)]) = .ok true := by
    unfold enquiryStep
    rw [show pySubscript (PyVal.dict [("daterequested", PyVal.str s)])
          "daterequested" = .ok (.str s) from rfl,
        bind_ok_eq,
        show pyStrptimeDT (PyVal.str s) = .ok t by simp only [pyStrptimeDT, hp],
        bind_ok_eq]
    simp [hle]
    rfl
  have hc : enquiryCounted now (.dict [("daterequested", .str s)]) = true := by
    unfold enquiryCounted
    rw [hstep]
  refine ⟨hc, ?_⟩
  rw [process_enquiry_history_list]
  simp [List.countP_cons, hc]

/-- Witness for C10: now at the epoch, entry 31 days in the future. -/
theorem C10_witness :
    parseDateTime "01/02/1970 00:00:00" = some 2678400 ∧ (0 : Int) < 2678400 ∧
    enquiryCounted 0 (.dict [("daterequested", PyVal.str "01/02/1970 00:00:00")]) =
      true :=
  ⟨rfl, by decide,
   (C10_holds 0 2678400 "01/02/1970 00:00:00" rfl (by decide)).1⟩

/-- C8: for every string that `strptime` accepts as `%d/%m/%Y`, the computed
age is the year difference, minus one exactly when today's (month, day) is
lexicographically before the birth (month, day); on 2024-06-14 a 15/06/1990
birthdate gives 33, on 2024-06-16 it gives 34. -/
theorem C8_holds :
    (∀ (today : DateD) (s : String) (b : DateD), parseDMY s = some b →
      calculate_age today (.str s) =
        .ok (.int (today.year - b.year -
          (if today.month < b.month ∨ (today.month = b.month ∧ today.day < b.day)
           then 1 else 0)))) ∧
    calculate_age ⟨2024, 6, 14⟩ (.str "15/06/1990") = .ok (.int 33) ∧
    calculate_age ⟨2024, 6, 16⟩ (.str "15/06/1990") = .ok (.int 34) := by
  refine ⟨?_, rfl, rfl⟩
  intro today s b h
  obtain ⟨c, t, hst, hc⟩ := parseDMYList_head_digit s.toList b h
  have hne : s ≠ "" := by
    intro he
    rw [he] at hst
    exact List.noConfusion hst
  have h1 : ¬(pyStrip s = "") := by
    intro he
    have hl : pyStripL s.toList = [] := congrArg String.data he
    rw [hst] at hl
    rw [pyStripL_sentinel_head c t (Or.inl hl)] at hc
    exact Bool.noConfusion hc
  have h2 : ¬(pyStrip s = "-") := by
    intro he
    have hl : pyStripL s.toList = ['-'] := congrArg String.data he
    rw [hst] at hl
    rw [pyStripL_sentinel_head c t (Or.inr hl)] at hc
    exact Bool.noConfusion hc
  simp [calculate_age, PyVal.truthy, hne, h1, h2, h]

/-- Witness for C8: the spec's birthdate parses and the formula applies. -/
theorem C8_witness :
    parseDMY "15/06/1990" = some ⟨1990, 6, 15⟩ ∧
    calculate_age today0 (.str "15/06/1990") = .ok (.int 33) :=
  ⟨rfl, C8_holds.1 today0 "15/06/1990" ⟨1990, 6, 15⟩ rfl⟩

end CreditBureau
